import Mathlib

/-!
Verification of the barcode-inventory frontend (Scanner, Dashboard, Settings
views) against its natural-language specification.

The TypeScript sources are shallowly embedded: each React component's state is
a Lean structure, each event handler is a pure function from state (plus the
outcome of any awaited remote call) to state together with the list of remote
requests it issues.  JavaScript string primitives used by the code
(`trim`, `toLowerCase`, `includes`, `parseInt`) are embedded as executable Lean
functions on `String` / `List Char`.
-/

/-! ## JavaScript string primitives -/

/-- Whitespace recognised by JavaScript's `String.prototype.trim` and
`parseInt` (the ASCII portion, which is all the inventory code can receive
from keyboard / scanner input). -/
def jsWhitespace (c : Char) : Bool :=
  c = ' ' || c = '\t' || c = '\n' || c = '\r' || c = '\x0b' || c = '\x0c'

/-- Embedding of `String.prototype.trim` on the character list: drop
whitespace from both ends. -/
def jsTrimList (cs : List Char) : List Char :=
  (cs.dropWhile jsWhitespace).rdropWhile jsWhitespace

/-- Embedding of `String.prototype.trim`. -/
def jsTrim (s : String) : String :=
  ⟨jsTrimList s.data⟩

/-- Embedding of `String.prototype.toLowerCase` (character-wise lowering; the
fields being lowered are barcodes, product names, colours and sizes). -/
def jsToLower (s : String) : String :=
  ⟨s.data.map Char.toLower⟩

/-- Embedding of `String.prototype.includes`: substring containment. -/
def jsIncludes (s needle : String) : Bool :=
  decide (needle.data <:+: s.data)

/-- Numeric value of a list of decimal digits, most significant first. -/
def decDigitsVal (ds : List Char) : Nat :=
  ds.foldl (fun a c => 10 * a + (c.toNat - 48)) 0

/-- Hexadecimal digit predicate used by `parseInt` with a `0x` prefix. -/
def isJsHexDigit (c : Char) : Bool :=
  c.isDigit || ('a' ≤ c && c ≤ 'f') || ('A' ≤ c && c ≤ 'F')

/-- Numeric value of a hexadecimal digit. -/
def hexDigitVal (c : Char) : Nat :=
  if c.isDigit then c.toNat - 48
  else if 'a' ≤ c && c ≤ 'f' then c.toNat - 87
  else c.toNat - 55

/-- Numeric value of a list of hexadecimal digits, most significant first. -/
def hexDigitsVal (ds : List Char) : Nat :=
  ds.foldl (fun a c => 16 * a + hexDigitVal c) 0

/-- Unsigned part of JavaScript `parseInt` with no explicit radix: a `0x` or
`0X` prefix selects base 16, otherwise the longest leading run of decimal
digits is read; no digits means `NaN`, embedded as `none`. -/
def jsParseUnsigned (cs : List Char) : Option Nat :=
  match cs with
  | c0 :: c1 :: t =>
    if c0 = '0' ∧ (c1 = 'x' ∨ c1 = 'X') then
      let ds := t.takeWhile isJsHexDigit
      if ds = [] then none else some (hexDigitsVal ds)
    else
      let ds := (c0 :: c1 :: t).takeWhile Char.isDigit
      if ds = [] then none else some (decDigitsVal ds)
  | _ =>
    let ds := cs.takeWhile Char.isDigit
    if ds = [] then none else some (decDigitsVal ds)

/-- Signed part of JavaScript `parseInt`: an optional single `-` or `+` before
the unsigned numeral. -/
def jsParseIntCore (cs : List Char) : Option Int :=
  match cs with
  | [] => none
  | c :: t =>
    if c = '-' then (jsParseUnsigned t).map (fun n => -(n : Int))
    else if c = '+' then (jsParseUnsigned t).map (fun n => (n : Int))
    else (jsParseUnsigned (c :: t)).map (fun n => (n : Int))

/-- Embedding of JavaScript `parseInt(s)` (radix argument omitted): skip
leading whitespace, then read an optionally signed numeral; `none` is `NaN`. -/
def jsParseInt (s : String) : Option Int :=
  jsParseIntCore (s.data.dropWhile jsWhitespace)

/-- Embedding of the idiom `parseInt(s) || 0`: `NaN` falls back to `0`
(a parsed `0` is also falsy, but `0 || 0` is again `0`). -/
def jsParseIntOr0 (s : String) : Int :=
  match jsParseInt s with
  | none => 0
  | some n => n

/-! ## Shared UI message shape

Both `Scanner.tsx` and `Settings.tsx` keep a transient message
`{ type: 'success' | 'error' | 'info', text }`. -/

/-- Message kind of the transient UI message. -/
inductive MsgType where
  | success
  | error
  | info
deriving DecidableEq

/-- A transient UI message `{ type, text }`. -/
structure UiMessage where
  type : MsgType
  text : String
deriving DecidableEq

/-- Embedding of the idiom `error.message || fallback` used in every catch
block: a missing or empty description falls back to the fixed generic text. -/
def errText (m : Option String) (fallback : String) : String :=
  match m with
  | some t => if t = "" then fallback else t
  | none => fallback

/-! ## Scanner view (`src/pages/Scanner.tsx`) -/

/-- Item state returned by the `sync-inventory` edge function and displayed
as the last-scanned snapshot. -/
structure ScannedItem where
  barcode : String
  product : String
  colour : String
  size : String
  quantity : Int
  low_stock_threshold : Int
deriving DecidableEq

/-- Direction of a counting request. -/
inductive ScanAction where
  | increment
  | decrement
deriving DecidableEq

/-- Creation defaults sent with a scan (`productData` in the request body). -/
structure ProductData where
  product : String
  colour : String
  size : String
deriving DecidableEq

/-- Body of a `sync-inventory` invocation (the only mutating request the
Scanner view issues). -/
structure SyncInvoke where
  action : ScanAction
  barcode : String
  productData : Option ProductData
deriving DecidableEq

/-- State of the Scanner component.  `barcodeInput`, `lastScannedItem`,
`scanMessage` and `isProcessing` are the `useState` fields; `pendingTimer`
models the `scanTimeoutRef` debounce timeout as delay in milliseconds paired
with the input value captured by the scheduled callback; `inFlight` is a
ghost counter of requests issued but not yet completed, used to state the
at-most-one-in-flight invariant. -/
structure ScannerState where
  barcodeInput : String
  lastScannedItem : Option ScannedItem
  scanMessage : Option UiMessage
  isProcessing : Bool
  pendingTimer : Option (Nat × String)
  inFlight : Nat
deriving DecidableEq

/-- Initial Scanner state. -/
def initScanner : ScannerState :=
  { barcodeInput := ""
    lastScannedItem := none
    scanMessage := none
    isProcessing := false
    pendingTimer := none
    inFlight := 0 }

/-- Request body built by `handleBarcodeSubmit`: action `increment`, trimmed
barcode, and creation defaults `Product-<trimmed barcode>` with empty colour
and size. -/
def scanInvoke (barcode : String) : SyncInvoke :=
  { action := ScanAction.increment
    barcode := jsTrim barcode
    productData := some { product := "Product-" ++ jsTrim barcode, colour := "", size := "" } }

/-- Synchronous part of `handleBarcodeSubmit` up to the `await`: the guard
`if (!barcode.trim() || isProcessing) return;` followed by
`setIsProcessing(true); setScanMessage(null);` and issuing the request. -/
def handleBarcodeSubmit (s : ScannerState) (barcode : String) :
    ScannerState × List SyncInvoke :=
  if jsTrim barcode = "" ∨ s.isProcessing = true then (s, [])
  else
    ({ s with isProcessing := true, scanMessage := none, inFlight := s.inFlight + 1 },
     [scanInvoke barcode])

/-- Success message shown after a scan. -/
def scanSuccessText (it : ScannedItem) : String :=
  "Scanned: " ++ it.product ++ " (Quantity: " ++ toString it.quantity ++ ")"

/-- Continuation of `handleBarcodeSubmit` after the awaited request settles:
the success branch, the catch branch, and the finally block
(`setIsProcessing(false); setBarcodeInput('')`).  A completion only exists
for a request that was actually started, hence the `isProcessing` guard. -/
def scanComplete (s : ScannerState) (result : Except (Option String) ScannedItem) :
    ScannerState :=
  if s.isProcessing = true then
    match result with
    | Except.ok it =>
        { s with lastScannedItem := some it
                 scanMessage := some ⟨MsgType.success, scanSuccessText it⟩
                 isProcessing := false
                 barcodeInput := ""
                 inFlight := s.inFlight - 1 }
    | Except.error e =>
        { s with scanMessage := some ⟨MsgType.error, errText e "Failed to process barcode"⟩
                 isProcessing := false
                 barcodeInput := ""
                 inFlight := s.inFlight - 1 }
  else s

/-- `handleInputChange`: update the displayed buffer, clear any pending
timeout, and schedule a fresh 100 ms timeout whose callback captures the new
value. -/
def handleInputChange (s : ScannerState) (value : String) : ScannerState :=
  { s with barcodeInput := value, pendingTimer := some (100, value) }

/-- `handleManualSubmit`: clear the pending timeout and submit the current
buffer immediately. -/
def handleManualSubmit (s : ScannerState) : ScannerState × List SyncInvoke :=
  handleBarcodeSubmit { s with pendingTimer := none } s.barcodeInput

/-- Firing of the debounce timeout: the callback runs with the captured value,
submitting it only when its trimmed form is non-empty.  A fired timeout is
consumed. -/
def fireTimer (s : ScannerState) : ScannerState × List SyncInvoke :=
  match s.pendingTimer with
  | none => (s, [])
  | some (_, v) =>
    if jsTrim v = "" then ({ s with pendingTimer := none }, [])
    else handleBarcodeSubmit { s with pendingTimer := none } v

/-- Request body built by `handleQuantityChange` (no `productData`). -/
def quantityInvoke (barcode : String) (a : ScanAction) : SyncInvoke :=
  { action := a, barcode := barcode, productData := none }

/-- Synchronous part of `handleQuantityChange` up to the `await`: the guard
`if (!lastScannedItem || isProcessing) return;` then `setIsProcessing(true)`
and issuing the request. -/
def handleQuantityChange (s : ScannerState) (a : ScanAction) :
    ScannerState × List SyncInvoke :=
  match s.lastScannedItem with
  | none => (s, [])
  | some it =>
    if s.isProcessing = true then (s, [])
    else
      ({ s with isProcessing := true, inFlight := s.inFlight + 1 },
       [quantityInvoke it.barcode a])

/-- Continuation of `handleQuantityChange` after the awaited request settles:
success branch, catch branch, finally block (`setIsProcessing(false)` only —
the buffer is not cleared here). -/
def quantityComplete (s : ScannerState) (result : Except (Option String) ScannedItem) :
    ScannerState :=
  if s.isProcessing = true then
    match result with
    | Except.ok it =>
        { s with lastScannedItem := some it
                 scanMessage := some ⟨MsgType.success, "Updated quantity to " ++ toString it.quantity⟩
                 isProcessing := false
                 inFlight := s.inFlight - 1 }
    | Except.error e =>
        { s with scanMessage := some ⟨MsgType.error, errText e "Failed to update quantity"⟩
                 isProcessing := false
                 inFlight := s.inFlight - 1 }
  else s

/-- `disabled={isProcessing}` on the barcode input field. -/
def inputDisabled (s : ScannerState) : Bool :=
  s.isProcessing

/-- `disabled={isProcessing || lastScannedItem.quantity <= 0}` on the
decrement button. -/
def decrementDisabled (s : ScannerState) (it : ScannedItem) : Bool :=
  s.isProcessing || decide (it.quantity ≤ 0)

/-- `disabled={isProcessing}` on the increment button. -/
def incrementDisabled (s : ScannerState) : Bool :=
  s.isProcessing

/-- The Low Stock Alert box is rendered exactly when
`lastScannedItem.quantity <= lastScannedItem.low_stock_threshold`. -/
def lowStockAlertShown (it : ScannedItem) : Bool :=
  decide (it.quantity ≤ it.low_stock_threshold)

/-- External events of the Scanner view.  `key c` is one character delivered
by the scanner or keyboard (the input's value grows by one character);
`fireTimer` is the debounce timeout elapsing; `scanDone` / `quantityDone` are
the settlements of the corresponding awaited request. -/
inductive ScanEvent where
  | key (c : Char)
  | fireTimer
  | manualSubmit
  | pressQuantity (a : ScanAction)
  | scanDone (r : Except (Option String) ScannedItem)
  | quantityDone (r : Except (Option String) ScannedItem)

/-- One step of the Scanner view: the state transition together with the
requests issued.  A disabled control delivers no event to its handler
(`disabled=` attributes in the JSX), which is why `key` and `pressQuantity`
are guarded by the corresponding `disabled` expressions. -/
def step (s : ScannerState) : ScanEvent → ScannerState × List SyncInvoke
  | ScanEvent.key c =>
      if inputDisabled s = true then (s, [])
      else (handleInputChange s (s.barcodeInput.push c), [])
  | ScanEvent.fireTimer => fireTimer s
  | ScanEvent.manualSubmit => handleManualSubmit s
  | ScanEvent.pressQuantity a =>
      match s.lastScannedItem with
      | none => (s, [])
      | some it =>
        if (match a with
            | ScanAction.decrement => decrementDisabled s it
            | ScanAction.increment => incrementDisabled s) = true then (s, [])
        else handleQuantityChange s a
  | ScanEvent.scanDone r => (scanComplete s r, [])
  | ScanEvent.quantityDone r => (quantityComplete s r, [])

/-- Run a sequence of events, collecting all issued requests in order. -/
def runScanner (s : ScannerState) : List ScanEvent → ScannerState × List SyncInvoke
  | [] => (s, [])
  | e :: es =>
      ((runScanner (step s e).1 es).1,
       (step s e).2 ++ (runScanner (step s e).1 es).2)

/-- The `useState` fields of the Scanner component (the debounce timeout is a
ref, not component state). -/
def uiView (s : ScannerState) : String × Option ScannedItem × Option UiMessage × Bool :=
  (s.barcodeInput, s.lastScannedItem, s.scanMessage, s.isProcessing)

/-! ## Dashboard view (the inventory table component) -/

/-- Database row of `inventory_items` (`InventoryItem` in `lib/supabase.ts`);
`colour` and `size` are nullable. -/
structure InventoryItem where
  id : String
  user_id : String
  barcode : String
  product : String
  colour : Option String
  size : Option String
  quantity : Int
  low_stock_threshold : Int
  created_at : String
  updated_at : String
deriving DecidableEq

/-- Predicate of the Dashboard filter effect: the query matches an item when
its lowercased form occurs in the lowercased barcode or product, or in the
lowercased colour or size when those are present (optional chaining makes a
null field simply not match). -/
def matchesQuery (q : String) (it : InventoryItem) : Bool :=
  jsIncludes (jsToLower it.barcode) (jsToLower q) ||
  jsIncludes (jsToLower it.product) (jsToLower q) ||
  (match it.colour with
   | some c => jsIncludes (jsToLower c) (jsToLower q)
   | none => false) ||
  (match it.size with
   | some c => jsIncludes (jsToLower c) (jsToLower q)
   | none => false)

/-- The filter effect: `inventory.filter(item => ...)`, recomputed from the
current query and inventory (its result is what `filteredInventory` holds). -/
def filterInventory (q : String) (inv : List InventoryItem) : List InventoryItem :=
  inv.filter (matchesQuery q)

/-- Specification-side predicate, written from the spec's words: the query is
a case-insensitive substring of at least one of the row's barcode, product,
colour, or size. -/
def CaseInsensitiveSubstr (q s : String) : Prop :=
  (jsToLower q).data <:+: (jsToLower s).data

/-- Specification-side row match, written from the spec's words. -/
def MatchesSpec (q : String) (it : InventoryItem) : Prop :=
  CaseInsensitiveSubstr q it.barcode ∨
  CaseInsensitiveSubstr q it.product ∨
  (∃ c, it.colour = some c ∧ CaseInsensitiveSubstr q c) ∨
  (∃ c, it.size = some c ∧ CaseInsensitiveSubstr q c)

/-- Status cell of a table row: `Low Stock` when
`item.quantity <= item.low_stock_threshold`, else `In Stock`. -/
def statusBadge (it : InventoryItem) : String :=
  if it.quantity ≤ it.low_stock_threshold then "Low Stock" else "In Stock"

/-- The quantity field of the inline-edit form:
`setEditingItem({ ...editingItem, quantity: parseInt(e.target.value) || 0 })`. -/
def applyQuantityInput (it : InventoryItem) (v : String) : InventoryItem :=
  { it with quantity := jsParseIntOr0 v }

/-- Field set sent by `handleUpdate` to the `inventory_items` table. -/
structure UpdateBody where
  product : String
  colour : Option String
  size : Option String
  quantity : Int
  low_stock_threshold : Int
  updated_at : String
deriving DecidableEq

/-- Request body of `handleUpdate`: the working copy's fields plus a fresh
timestamp. -/
def handleUpdateBody (it : InventoryItem) (now : String) : UpdateBody :=
  { product := it.product
    colour := it.colour
    size := it.size
    quantity := it.quantity
    low_stock_threshold := it.low_stock_threshold
    updated_at := now }

/-! ### HTML number-input value domain

The quantity field is an `<input type="number">`; per the HTML value
sanitisation algorithm its `value` is either empty or a valid floating-point
number string: optional `-`, then digits optionally followed by `.` and
digits (or `.` and digits alone), optionally followed by an exponent part. -/

/-- Exponent part of a valid floating-point number string: `e`/`E`, an
optional sign, and at least one digit, consuming the whole rest. -/
def validExpDigits : List Char → Bool
  | [] => false
  | c :: t =>
    let t1 := if c = '+' ∨ c = '-' then t else c :: t
    decide (t1.takeWhile Char.isDigit ≠ []) && decide (t1.dropWhile Char.isDigit = [])

/-- Rest of a valid floating-point number string after the mantissa: either
nothing or an exponent part. -/
def validExpOrEnd : List Char → Bool
  | [] => true
  | c :: t => if c = 'e' ∨ c = 'E' then validExpDigits t else false

/-- Rest of a valid floating-point number string after the integer digits:
an optional fraction, then an optional exponent part. -/
def validAfterDigits : List Char → Bool
  | [] => true
  | c :: t =>
    if c = '.' then
      decide (t.takeWhile Char.isDigit ≠ []) && validExpOrEnd (t.dropWhile Char.isDigit)
    else validExpOrEnd (c :: t)

/-- Unsigned valid floating-point number string. -/
def validFloatBody (cs : List Char) : Bool :=
  if cs.takeWhile Char.isDigit = [] then
    match cs with
    | [] => false
    | c :: t =>
      if c = '.' then
        decide (t.takeWhile Char.isDigit ≠ []) && validExpOrEnd (t.dropWhile Char.isDigit)
      else false
  else validAfterDigits (cs.dropWhile Char.isDigit)

/-- Valid floating-point number string (possible `value` of a non-empty
`<input type="number">`). -/
def validFloatStr (s : String) : Bool :=
  match s.data with
  | [] => false
  | c :: t => if c = '-' then validFloatBody t else validFloatBody (c :: t)

/-- Specification-side coercion, written from the claim's words: the integer
read from the string's leading digits after an optional minus sign, and `0`
when no such digits exist. -/
def specQuantityOfInput (s : String) : Int :=
  match s.data with
  | [] => 0
  | c :: t =>
    if c = '-' then
      let ds := t.takeWhile Char.isDigit
      if ds = [] then 0 else -(decDigitsVal ds : Int)
    else
      let ds := (c :: t).takeWhile Char.isDigit
      if ds = [] then 0 else (decDigitsVal ds : Int)

/-! ## Settings view (`src/pages/Settings.tsx`) -/

/-- Remote requests the Settings view can issue: the two edge-function
invocations and the sync-history reload (a read-only select ordered by
`created_at` descending with the given row limit). -/
inductive SettingsRequest where
  | importInvoke (spreadsheetId range apiKey : String)
  | exportInvoke (spreadsheetId range accessToken : String)
  | reloadHistory (limit : Nat) (newestFirst : Bool)
deriving DecidableEq

/-- Result shape of a successful `import-from-sheets` invocation. -/
structure ImportResult where
  imported : Nat
  errors : Nat
deriving DecidableEq

/-- Result shape of a successful `export-to-sheets` invocation. -/
structure ExportResult where
  exportedRows : Nat
deriving DecidableEq

/-- Row of the read-only `google_sheets_sync` log. -/
structure SyncRecord where
  id : String
  sheet_name : Option String
  sync_status : String
  created_at : String
deriving DecidableEq

/-- State of the Settings component (`useState` fields). -/
structure SettingsState where
  spreadsheetId : String
  range : String
  apiKey : String
  accessToken : String
  loading : Bool
  message : Option UiMessage
  syncHistory : List SyncRecord
deriving DecidableEq

/-- The request sent by `loadSyncHistory`: newest first
(`order('created_at', { ascending: false })`), at most five rows
(`limit(5)`). -/
def loadSyncHistoryRequest : SettingsRequest :=
  SettingsRequest.reloadHistory 5 true

/-- Success message of an import. -/
def importSuccessText (r : ImportResult) : String :=
  "Successfully imported " ++ toString r.imported ++ " items" ++
    (if 0 < r.errors then " (" ++ toString r.errors ++ " errors)" else "")

/-- Success message of an export. -/
def exportSuccessText (r : ExportResult) : String :=
  "Successfully exported " ++ toString r.exportedRows ++ " items to Google Sheets"

/-- `handleImport`: set the busy flag and clear the message, validate the
three required fields before any network call (a blank field throws straight
into the catch block), otherwise invoke `import-from-sheets` and on success
reload the history; every path ends with the finally block clearing the busy
flag.  `remote` is the outcome the invocation would settle with; it is
consulted only when validation passes. -/
def handleImport (s : SettingsState) (remote : Except (Option String) ImportResult) :
    SettingsState × List SettingsRequest :=
  let s1 := { s with loading := true, message := none }
  if s.spreadsheetId = "" ∨ s.range = "" ∨ s.apiKey = "" then
    ({ s1 with message := some ⟨MsgType.error, "Please fill in all required fields"⟩,
               loading := false }, [])
  else
    match remote with
    | Except.ok r =>
        ({ s1 with message := some ⟨MsgType.success, importSuccessText r⟩, loading := false },
         [SettingsRequest.importInvoke s.spreadsheetId s.range s.apiKey, loadSyncHistoryRequest])
    | Except.error e =>
        ({ s1 with message := some ⟨MsgType.error, errText e "Failed to import from Google Sheets"⟩,
                   loading := false },
         [SettingsRequest.importInvoke s.spreadsheetId s.range s.apiKey])

/-- `handleExport`: same shape as `handleImport` with the access token in
place of the API key. -/
def handleExport (s : SettingsState) (remote : Except (Option String) ExportResult) :
    SettingsState × List SettingsRequest :=
  let s1 := { s with loading := true, message := none }
  if s.spreadsheetId = "" ∨ s.range = "" ∨ s.accessToken = "" then
    ({ s1 with message := some ⟨MsgType.error, "Please fill in all required fields including access token"⟩,
               loading := false }, [])
  else
    match remote with
    | Except.ok r =>
        ({ s1 with message := some ⟨MsgType.success, exportSuccessText r⟩, loading := false },
         [SettingsRequest.exportInvoke s.spreadsheetId s.range s.accessToken, loadSyncHistoryRequest])
    | Except.error e =>
        ({ s1 with message := some ⟨MsgType.error, errText e "Failed to export to Google Sheets"⟩,
                   loading := false },
         [SettingsRequest.exportInvoke s.spreadsheetId s.range s.accessToken])

/-! ## General lemmas about the embedded string primitives -/

/-- Appending strings appends their character lists. -/
theorem str_append_data (x y : String) : x ++ y = ⟨x.data ++ y.data⟩ :=
  rfl

/-- Pushing a character appends it to the character list. -/
theorem str_push_data (x : String) (c : Char) : x.push c = ⟨x.data ++ [c]⟩ :=
  rfl

/-- Two strings with equal character lists are equal. -/
theorem str_mk_inj {l m : List Char} : (⟨l⟩ : String) = ⟨m⟩ ↔ l = m :=
  ⟨fun h => congrArg String.data h, fun h => congrArg String.mk h⟩

/-- A prefix of a list with no `p`-prefix itself has no `p`-prefix. -/
theorem dropWhile_eq_self_of_leading {p : Char → Bool} {t l : List Char}
    (hpre : t <+: l) (hl : l.dropWhile p = l) : t.dropWhile p = t := by
  cases t with
  | nil => rfl
  | cons c t2 =>
    have hc : p c = false := by
      obtain ⟨u, hu⟩ := hpre
      by_contra hpc
      have hpc2 : p c = true := by
        cases hpcc : p c with
        | false => exact absurd hpcc hpc
        | true => rfl
      rw [← hu, List.cons_append] at hl
      simp only [List.dropWhile_cons, hpc2, if_true] at hl
      have hlen := congrArg List.length hl
      have hle : ((t2 ++ u).dropWhile p).length ≤ (t2 ++ u).length :=
        (List.dropWhile_suffix p).length_le
      simp only [List.length_cons] at hlen
      omega
    rw [List.dropWhile_cons, if_neg (by simp [hc])]

/-- The embedded `trim` is idempotent: a trimmed string has no leading or
trailing whitespace left. -/
theorem jsTrim_idem (s : String) : jsTrim (jsTrim s) = jsTrim s := by
  show (⟨jsTrimList (jsTrimList s.data)⟩ : String) = ⟨jsTrimList s.data⟩
  rw [str_mk_inj]
  unfold jsTrimList
  rw [dropWhile_eq_self_of_leading ( List.rdropWhile_prefix _ _)
        (List.dropWhile_idempotent _ _),
      List.rdropWhile_idempotent]

/-- Option-valued match against `false`, as produced by optional chaining. -/
theorem option_match_eq_true {o : Option String} {f : String → Bool} :
    (match o with
     | some c => f c
     | none => false) = true ↔ ∃ c, o = some c ∧ f c = true := by
  cases o <;> simp

/-! ## Claim C4 — inventory filtering -/

/-- The Dashboard filter predicate agrees with the specification predicate. -/
theorem matchesQuery_iff (q : String) (it : InventoryItem) :
    matchesQuery q it = true ↔ MatchesSpec q it := by
  unfold matchesQuery MatchesSpec CaseInsensitiveSubstr jsIncludes
  cases hc : it.colour <;> cases hs : it.size <;>
    simp [Bool.or_eq_true, decide_eq_true_eq, or_assoc]

/-- Claim C4: a row is in the filtered result iff the query is a
case-insensitive substring of at least one of the row's barcode, product,
colour, or size; the empty query matches every row.  The filter is a pure
function of the current query and inventory (no request type even exists for
it), so it is recomputed from those two values alone. -/
theorem inventory_filter_spec :
    (∀ (q : String) (inv : List InventoryItem) (it : InventoryItem),
       it ∈ filterInventory q inv ↔ it ∈ inv ∧ MatchesSpec q it) ∧
    (∀ inv : List InventoryItem, filterInventory "" inv = inv) := by
  constructor
  · intro q inv it
    rw [filterInventory, List.mem_filter]
    exact and_congr_right fun _ => matchesQuery_iff q it
  · intro inv
    rw [filterInventory]
    apply List.filter_eq_self.mpr
    intro a _
    have h0 : (jsToLower "").data = [] := rfl
    unfold matchesQuery jsIncludes
    rw [h0]
    simp [Bool.or_eq_true, decide_eq_true_eq]

/-! ## Claim C5 — low-stock indicator -/

/-- Claim C5: the Scanner's low-stock alert is shown iff the snapshot's
quantity is at most its threshold, and a table row's status cell reads
`Low Stock` exactly under the same comparison of that row's current fields,
`In Stock` otherwise. -/
theorem low_stock_indicator_spec :
    (∀ it : ScannedItem, lowStockAlertShown it = true ↔ it.quantity ≤ it.low_stock_threshold) ∧
    (∀ it : InventoryItem, statusBadge it = "Low Stock" ↔ it.quantity ≤ it.low_stock_threshold) ∧
    (∀ it : InventoryItem, statusBadge it = "In Stock" ↔ it.low_stock_threshold < it.quantity) := by
  refine ⟨fun it => ?_, fun it => ?_, fun it => ?_⟩
  · simp [lowStockAlertShown]
  · unfold statusBadge
    by_cases h : it.quantity ≤ it.low_stock_threshold <;> simp [h]
  · unfold statusBadge
    by_cases h : it.quantity ≤ it.low_stock_threshold <;> simp [h]
    omega

/-! ## Claim C6 — failure contract of scan and quantity adjustment -/

/-- Claim C6: when the remote counting operation fails, the error message
shown carries the failure's description (or the fixed generic fallback when
it carries none or an empty one), the last-scanned snapshot is unchanged, the
busy flag is cleared, the scan path additionally clears the input buffer, and
no further request is issued (nothing is retried). -/
theorem failure_contract :
    (∀ (s : ScannerState) (e : Option String), s.isProcessing = true →
       (scanComplete s (Except.error e)).lastScannedItem = s.lastScannedItem ∧
       (scanComplete s (Except.error e)).isProcessing = false ∧
       (scanComplete s (Except.error e)).barcodeInput = "" ∧
       (scanComplete s (Except.error e)).scanMessage =
         some ⟨MsgType.error, errText e "Failed to process barcode"⟩ ∧
       (step s (ScanEvent.scanDone (Except.error e))).2 = []) ∧
    (∀ (s : ScannerState) (e : Option String), s.isProcessing = true →
       (quantityComplete s (Except.error e)).lastScannedItem = s.lastScannedItem ∧
       (quantityComplete s (Except.error e)).isProcessing = false ∧
       (quantityComplete s (Except.error e)).scanMessage =
         some ⟨MsgType.error, errText e "Failed to update quantity"⟩ ∧
       (step s (ScanEvent.quantityDone (Except.error e))).2 = []) ∧
    (∀ (t fb : String), t ≠ "" → errText (some t) fb = t) ∧
    (∀ fb : String, errText none fb = fb) := by
  refine ⟨fun s e h => ?_, fun s e h => ?_, fun t fb ht => ?_, fun fb => rfl⟩
  · simp [scanComplete, step, h]
  · simp [quantityComplete, step, h]
  · simp [errText, ht]

/-- Witness for C6 at a concrete busy state and a failure with description
`boom`. -/
theorem failure_contract_witness :
    (scanComplete { initScanner with isProcessing := true }
        (Except.error (some "boom"))).lastScannedItem = none ∧
    (scanComplete { initScanner with isProcessing := true }
        (Except.error (some "boom"))).isProcessing = false ∧
    (scanComplete { initScanner with isProcessing := true }
        (Except.error (some "boom"))).scanMessage =
      some ⟨MsgType.error, errText (some "boom") "Failed to process barcode"⟩ := by
  have h := failure_contract.1 { initScanner with isProcessing := true } (some "boom") rfl
  exact ⟨h.1, h.2.1, h.2.2.2.1⟩

/-! ## Claim C7 — local validation of the import form -/

/-- Claim C7: submitting the import form with any of spreadsheet id, range,
or API key blank invokes nothing (`remote` is never consulted and the request
list is empty) and leaves every state field unchanged except that the
validation error message is shown; in particular the sync history and the
credentials are untouched and the busy flag ends cleared. -/
theorem import_validation_local :
    ∀ (s : SettingsState) (remote : Except (Option String) ImportResult),
      s.spreadsheetId = "" ∨ s.range = "" ∨ s.apiKey = "" →
      handleImport s remote =
        ({ s with loading := false,
                  message := some ⟨MsgType.error, "Please fill in all required fields"⟩ }, []) := by
  intro s remote h
  unfold handleImport
  rw [if_pos h]

/-- Witness for C7: a concrete form state with a blank API key. -/
theorem import_validation_local_witness :
    handleImport
        { spreadsheetId := "1BxiMVs", range := "Sheet1!A:F", apiKey := "",
          accessToken := "", loading := false, message := none, syncHistory := [] }
        (Except.ok { imported := 3, errors := 0 }) =
      ({ spreadsheetId := "1BxiMVs", range := "Sheet1!A:F", apiKey := "",
         accessToken := "", loading := false,
         message := some ⟨MsgType.error, "Please fill in all required fields"⟩,
         syncHistory := [] }, []) :=
  import_validation_local
    { spreadsheetId := "1BxiMVs", range := "Sheet1!A:F", apiKey := "",
      accessToken := "", loading := false, message := none, syncHistory := [] }
    (Except.ok { imported := 3, errors := 0 })
    (Or.inr (Or.inr rfl))

/-! ## Claim C8 — sync history reload -/

/-- A Settings form state with all fields filled. -/
def filledSettings : SettingsState :=
  { spreadsheetId := "sheet-1", range := "Sheet1!A:F", apiKey := "key-1",
    accessToken := "tok-1", loading := false, message := none, syncHistory := [] }

/-- Counterexample to claim C8 as stated: at this concrete input the import
operation completes (with a failure) yet the only request issued is the
invocation itself — the history reload is not among the issued requests, so
the history is not reloaded "regardless of whether the operation succeeded or
failed". -/
theorem history_reload_skipped_on_failure_cex :
    (handleImport filledSettings (Except.error (some "boom"))).2 =
      [SettingsRequest.importInvoke "sheet-1" "Sheet1!A:F" "key-1"] ∧
    loadSyncHistoryRequest ∉ (handleImport filledSettings (Except.error (some "boom"))).2 := by
  constructor
  · rfl
  · decide

/-- Amended claim C8: after either operation completes successfully the sync
history is reloaded from the read-only log, limited to the five most recent
records ordered newest first; after a failed operation no reload is issued. -/
theorem history_reload_after_success :
    (∀ (s : SettingsState) (r : ImportResult),
       s.spreadsheetId ≠ "" → s.range ≠ "" → s.apiKey ≠ "" →
       (handleImport s (Except.ok r)).2 =
         [SettingsRequest.importInvoke s.spreadsheetId s.range s.apiKey,
          SettingsRequest.reloadHistory 5 true]) ∧
    (∀ (s : SettingsState) (e : Option String),
       s.spreadsheetId ≠ "" → s.range ≠ "" → s.apiKey ≠ "" →
       (handleImport s (Except.error e)).2 =
         [SettingsRequest.importInvoke s.spreadsheetId s.range s.apiKey]) ∧
    (∀ (s : SettingsState) (r : ExportResult),
       s.spreadsheetId ≠ "" → s.range ≠ "" → s.accessToken ≠ "" →
       (handleExport s (Except.ok r)).2 =
         [SettingsRequest.exportInvoke s.spreadsheetId s.range s.accessToken,
          SettingsRequest.reloadHistory 5 true]) ∧
    (∀ (s : SettingsState) (e : Option String),
       s.spreadsheetId ≠ "" → s.range ≠ "" → s.accessToken ≠ "" →
       (handleExport s (Except.error e)).2 =
         [SettingsRequest.exportInvoke s.spreadsheetId s.range s.accessToken]) := by
  refine ⟨fun s r h1 h2 h3 => ?_, fun s e h1 h2 h3 => ?_,
          fun s r h1 h2 h3 => ?_, fun s e h1 h2 h3 => ?_⟩ <;>
    simp [handleImport, handleExport, h1, h2, h3, loadSyncHistoryRequest]

/-- Witness for the amended C8 at a concrete filled form and a successful
run importing three rows. -/
theorem history_reload_after_success_witness :
    (handleImport filledSettings (Except.ok { imported := 3, errors := 0 })).2 =
      [SettingsRequest.importInvoke "sheet-1" "Sheet1!A:F" "key-1",
       SettingsRequest.reloadHistory 5 true] :=
  history_reload_after_success.1 filledSettings { imported := 3, errors := 0 }
    (by decide) (by decide) (by decide)

/-! ## Claim C10 — scan request normalisation -/

/-- Claim C10: a submitted buffer reaches the backend as the
whitespace-trimmed barcode (the trimmed barcode has no leading or trailing
whitespace left, witnessed by `trim` being idempotent on it), with action
`increment` and creation defaults `Product-` followed by the trimmed barcode
and empty colour and size; and the success message is
`Scanned: <product> (Quantity: <quantity>)` built from the returned item. -/
theorem scan_request_normalization :
    (∀ (s : ScannerState) (b : String), s.isProcessing = false → jsTrim b ≠ "" →
       (handleBarcodeSubmit s b).2 =
         [{ action := ScanAction.increment
            barcode := jsTrim b
            productData := some { product := "Product-" ++ jsTrim b, colour := "", size := "" } }]) ∧
    (∀ b : String, jsTrim (scanInvoke b).barcode = (scanInvoke b).barcode) ∧
    (∀ (s : ScannerState) (it : ScannedItem), s.isProcessing = true →
       (scanComplete s (Except.ok it)).scanMessage =
         some ⟨MsgType.success,
               "Scanned: " ++ it.product ++ " (Quantity: " ++ toString it.quantity ++ ")"⟩) := by
  refine ⟨fun s b h1 h2 => ?_, fun b => jsTrim_idem b, fun s it h => ?_⟩
  · unfold handleBarcodeSubmit
    rw [if_neg]
    · rfl
    · simp [h1, h2]
  · simp [scanComplete, h, scanSuccessText]

/-- Witness for C10: submitting `  123 ` from the idle initial state issues
exactly the normalised request. -/
theorem scan_request_normalization_witness :
    (handleBarcodeSubmit initScanner "  123 ").2 =
      [{ action := ScanAction.increment
         barcode := jsTrim "  123 "
         productData := some { product := "Product-" ++ jsTrim "  123 ", colour := "", size := "" } }] :=
  scan_request_normalization.1 initScanner "  123 " rfl (by decide)

/-! ## Claim C3 — quantity adjustment guards -/

/-- Claim C3: a decrement button press can only issue a request when the
snapshot's quantity is positive (the control is disabled whenever the
quantity is at most zero or an operation is in flight), while the increment
control ignores the quantity entirely: whenever the view is idle, a press
issues an increment request no matter how large the quantity is. -/
theorem quantity_guards :
    (∀ (s : ScannerState) (it : ScannedItem), s.lastScannedItem = some it →
       (step s (ScanEvent.pressQuantity ScanAction.decrement)).2 ≠ [] →
       0 < it.quantity) ∧
    (∀ (s : ScannerState) (it : ScannedItem),
       s.isProcessing = true ∨ it.quantity ≤ 0 → decrementDisabled s it = true) ∧
    (∀ (s : ScannerState) (it : ScannedItem), s.lastScannedItem = some it →
       s.isProcessing = false →
       (step s (ScanEvent.pressQuantity ScanAction.increment)).2 =
         [quantityInvoke it.barcode ScanAction.increment]) := by
  refine ⟨fun s it h hne => ?_, fun s it h => ?_, fun s it h hp => ?_⟩
  · by_contra hq
    apply hne
    have hq2 : it.quantity ≤ 0 := by omega
    simp [step, h, decrementDisabled, hq2]
  · unfold decrementDisabled
    rcases h with h | h <;> simp [h]
  · simp [step, h, incrementDisabled, hp, handleQuantityChange]

/-- A concrete snapshot item with stock 5 and threshold 10. -/
def scannedSample : ScannedItem :=
  { barcode := "123", product := "Product-123", colour := "", size := "",
    quantity := 5, low_stock_threshold := 10 }

/-- Witness for C3: with the sample snapshot and an idle view, pressing
increment issues exactly one increment request. -/
theorem quantity_guards_witness :
    (step { initScanner with lastScannedItem := some scannedSample }
        (ScanEvent.pressQuantity ScanAction.increment)).2 =
      [quantityInvoke scannedSample.barcode ScanAction.increment] :=
  quantity_guards.2.2 { initScanner with lastScannedItem := some scannedSample }
    scannedSample rfl rfl

/-! ## Claim C2 — at most one mutating request in flight -/

/-- The ghost in-flight counter mirrors the busy flag: one request is
outstanding exactly while `isProcessing` is set. -/
def ScannerInv (s : ScannerState) : Prop :=
  s.inFlight = if s.isProcessing = true then 1 else 0

/-- Every Scanner event preserves the in-flight invariant. -/
theorem step_preserves_inv (s : ScannerState) (e : ScanEvent)
    (h : ScannerInv s) : ScannerInv (step s e).1 := by
  unfold ScannerInv at *
  cases e with
  | key c =>
    by_cases hd : inputDisabled s = true <;>
      simp [step, hd, handleInputChange, h]
  | fireTimer =>
    cases hpt : s.pendingTimer with
    | none => simpa [step, fireTimer, hpt] using h
    | some dv =>
      cases hp : s.isProcessing with
      | true =>
        rw [hp] at h
        simp at h
        by_cases hv : jsTrim dv.2 = "" <;>
          simp [step, fireTimer, hpt, hv, handleBarcodeSubmit, hp, h]
      | false =>
        rw [hp] at h
        simp at h
        by_cases hv : jsTrim dv.2 = "" <;>
          simp [step, fireTimer, hpt, hv, handleBarcodeSubmit, hp, h]
  | manualSubmit =>
    cases hp : s.isProcessing with
    | true =>
      rw [hp] at h
      simp at h
      simp [step, handleManualSubmit, handleBarcodeSubmit, hp, h]
    | false =>
      rw [hp] at h
      simp at h
      by_cases hv : jsTrim s.barcodeInput = "" <;>
        simp [step, handleManualSubmit, handleBarcodeSubmit, hp, hv, h]
  | pressQuantity a =>
    cases hl : s.lastScannedItem with
    | none => simpa [step, hl] using h
    | some it =>
      cases hp : s.isProcessing with
      | true =>
        rw [hp] at h
        simp at h
        cases a <;>
          simp [step, hl, decrementDisabled, incrementDisabled, hp,
                handleQuantityChange, h]
      | false =>
        rw [hp] at h
        simp at h
        cases a with
        | increment =>
          simp [step, hl, incrementDisabled, hp, handleQuantityChange, h]
        | decrement =>
          by_cases hq : it.quantity ≤ 0 <;>
            simp [step, hl, decrementDisabled, hp, hq, handleQuantityChange, h]
  | scanDone r =>
    cases hp : s.isProcessing with
    | true =>
      rw [hp] at h
      simp at h
      cases r <;> simp [step, scanComplete, hp, h]
    | false =>
      rw [hp] at h
      simp at h
      simp [step, scanComplete, hp, h]
  | quantityDone r =>
    cases hp : s.isProcessing with
    | true =>
      rw [hp] at h
      simp at h
      cases r <;> simp [step, quantityComplete, hp, h]
    | false =>
      rw [hp] at h
      simp at h
      simp [step, quantityComplete, hp, h]

/-- The in-flight invariant holds along every event trace. -/
theorem run_preserves_inv (tr : List ScanEvent) :
    ∀ s : ScannerState, ScannerInv s → ScannerInv (runScanner s tr).1 := by
  induction tr with
  | nil => intro s h; exact h
  | cons e es ih =>
    intro s h
    exact ih (step s e).1 (step_preserves_inv s e h)

/-- Claim C2: while the busy flag is set, any further submit attempt —
manual, timer-triggered, or a quantity-adjust press — issues no request and
leaves every component-state field (input buffer, snapshot, message, busy
flag) unchanged; and along every event trace from the initial state at most
one mutating request is in flight at any time. -/
theorem at_most_one_in_flight :
    (∀ (s : ScannerState) (e : ScanEvent), s.isProcessing = true →
       (e = ScanEvent.manualSubmit ∨ e = ScanEvent.fireTimer ∨
        (∃ a, e = ScanEvent.pressQuantity a)) →
       (step s e).2 = [] ∧ uiView (step s e).1 = uiView s) ∧
    (∀ tr : List ScanEvent, (runScanner initScanner tr).1.inFlight ≤ 1) := by
  constructor
  · intro s e hp he
    rcases he with rfl | rfl | ⟨a, rfl⟩
    · simp [step, handleManualSubmit, handleBarcodeSubmit, hp, uiView]
    · cases hpt : s.pendingTimer with
      | none => simp [step, fireTimer, hpt, uiView]
      | some dv =>
        by_cases hv : jsTrim dv.2 = "" <;>
          simp [step, fireTimer, hpt, hv, handleBarcodeSubmit, hp, uiView]
    · cases hl : s.lastScannedItem with
      | none => simp [step, hl, uiView]
      | some it =>
        cases a <;>
          simp [step, hl, decrementDisabled, incrementDisabled, hp, uiView]
  · intro tr
    have h0 : ScannerInv initScanner := rfl
    have h := run_preserves_inv tr initScanner h0
    unfold ScannerInv at h
    split at h <;> omega

/-- Witness for C2: a manual submit attempt while a request is outstanding
issues nothing and changes no component state. -/
theorem at_most_one_in_flight_witness :
    (step { initScanner with isProcessing := true } ScanEvent.manualSubmit).2 = [] ∧
    uiView (step { initScanner with isProcessing := true } ScanEvent.manualSubmit).1 =
      uiView { initScanner with isProcessing := true } :=
  at_most_one_in_flight.1 { initScanner with isProcessing := true }
    ScanEvent.manualSubmit rfl (Or.inl rfl)

/-! ## Claim C1 — debounced scan pipeline -/

/-- Unfolding of `runScanner` on a first event. -/
theorem runScanner_cons (s : ScannerState) (e : ScanEvent) (es : List ScanEvent) :
    runScanner s (e :: es) =
      ((runScanner (step s e).1 es).1,
       (step s e).2 ++ (runScanner (step s e).1 es).2) :=
  rfl

/-- Requests of a concatenated run are the concatenated requests. -/
theorem runScanner_append (l1 l2 : List ScanEvent) :
    ∀ s : ScannerState,
      runScanner s (l1 ++ l2) =
        ((runScanner (runScanner s l1).1 l2).1,
         (runScanner s l1).2 ++ (runScanner (runScanner s l1).1 l2).2) := by
  induction l1 with
  | nil => intro s; simp [runScanner]
  | cons e es ih =>
    intro s
    simp [runScanner, ih (step s e).1, List.append_assoc]

/-- Delivering a non-empty burst of characters to the idle input issues no
request, accumulates the whole burst in the buffer, and leaves exactly one
fresh 100 ms timer capturing the full buffer. -/
theorem runKeys (cs : List Char) :
    ∀ (c : Char) (s : ScannerState), s.isProcessing = false →
      runScanner s ((c :: cs).map ScanEvent.key) =
        ({ s with barcodeInput := s.barcodeInput ++ ⟨c :: cs⟩,
                  pendingTimer := some (100, s.barcodeInput ++ ⟨c :: cs⟩) }, []) := by
  induction cs with
  | nil =>
    intro c s h
    simp [runScanner, step, inputDisabled, h, handleInputChange,
          str_push_data, str_append_data]
  | cons c2 cs ih =>
    intro c s h
    have hstep1 : (step s (ScanEvent.key c)).1 = handleInputChange s (s.barcodeInput.push c) := by
      simp [step, inputDisabled, h]
    have hstep2 : (step s (ScanEvent.key c)).2 = [] := by
      simp [step, inputDisabled, h]
    have hih := ih c2 (handleInputChange s (s.barcodeInput.push c))
      (by simp [handleInputChange, h])
    rw [List.map_cons, runScanner_cons, hstep1, hstep2, hih]
    simp [handleInputChange, str_push_data, str_append_data, List.append_assoc]

/-- Claim C1: for a burst of characters with no timer expiry in between
(inter-character gaps below the 100 ms threshold), followed by the single
timer expiry after the final character, exactly one submission is issued and
it carries the full concatenated buffer; moreover every input change installs
a fresh 100 ms timer capturing the new value (cancelling the previous one),
and an expiring timer submits nothing when its captured value trims to
empty. -/
theorem debounce_pipeline :
    (∀ (cs : List Char) (s : ScannerState),
       s.barcodeInput = "" → s.isProcessing = false → cs ≠ [] → jsTrim ⟨cs⟩ ≠ "" →
       (runScanner s (cs.map ScanEvent.key ++ [ScanEvent.fireTimer])).2 =
         [scanInvoke ⟨cs⟩]) ∧
    (∀ (s : ScannerState) (v : String),
       (handleInputChange s v).pendingTimer = some (100, v)) ∧
    (∀ (s : ScannerState) (d : Nat) (v : String),
       s.pendingTimer = some (d, v) → jsTrim v = "" → (fireTimer s).2 = []) := by
  refine ⟨?_, fun s v => rfl, fun s d v hpt hv => ?_⟩
  · intro cs s hbuf hproc hne htrim
    cases cs with
    | nil => exact absurd rfl hne
    | cons c cs =>
      rw [runScanner_append]
      rw [runKeys cs c s hproc]
      have hbuf2 : s.barcodeInput ++ (⟨c :: cs⟩ : String) = ⟨c :: cs⟩ := by
        rw [hbuf]
        rfl
      rw [hbuf2]
      simp only [runScanner, step, fireTimer]
      rw [if_neg htrim]
      unfold handleBarcodeSubmit
      rw [if_neg]
      · simp
      · simp [htrim, hproc]
  · simp [fireTimer, hpt, hv]

/-- Witness for C1: the two-character burst `ab` delivered to the idle
scanner, followed by the timer expiry, submits exactly `ab`. -/
theorem debounce_pipeline_witness :
    (runScanner initScanner
        ((['a', 'b'].map ScanEvent.key) ++ [ScanEvent.fireTimer])).2 =
      [scanInvoke ⟨['a', 'b']⟩] :=
  debounce_pipeline.1 ['a', 'b'] initScanner rfl rfl (by decide) (by decide)

/-! ## Claim C9 — inline-edit quantity coercion -/

/-- A decimal digit is not JavaScript whitespace. -/
theorem digit_not_jsWhitespace {c : Char} (h : c.isDigit = true) :
    jsWhitespace c = false := by
  rcases Decidable.em (jsWhitespace c = true) with hw | hw
  · exfalso
    simp only [jsWhitespace, Bool.or_eq_true, decide_eq_true_eq] at hw
    rcases hw with ((((rfl | rfl) | rfl) | rfl) | rfl) | rfl <;> simp at h
  · simpa using hw

/-- A valid floating-point number string starts (after the optional sign)
with a digit or a decimal point. -/
theorem validFloatBody_cons_head {c : Char} {t : List Char}
    (h : validFloatBody (c :: t) = true) : c.isDigit = true ∨ c = '.' := by
  by_cases hd : c.isDigit = true
  · exact Or.inl hd
  · right
    have hdf : c.isDigit = false := by
      cases hdd : c.isDigit with
      | true => exact absurd hdd hd
      | false => rfl
    by_contra hdot
    simp [validFloatBody, List.takeWhile_cons, hdf, hdot] at h

/-- On a valid floating-point number string the `0x`-prefix branch of
`parseInt` is unreachable: the numeral read is the leading run of decimal
digits. -/
theorem jsParseUnsigned_of_valid {cs : List Char} (h : validFloatBody cs = true) :
    jsParseUnsigned cs =
      (if cs.takeWhile Char.isDigit = [] then none
       else some (decDigitsVal (cs.takeWhile Char.isDigit))) := by
  match cs with
  | [] => exact absurd h (by decide)
  | [c0] => rfl
  | c0 :: c1 :: t =>
    by_cases hx : c0 = '0' ∧ (c1 = 'x' ∨ c1 = 'X')
    · exfalso
      obtain ⟨h0, hxx⟩ := hx
      subst h0
      have e1 : Char.isDigit '0' = true := by decide
      rcases hxx with rfl | rfl
      · have e2 : Char.isDigit 'x' = false := by decide
        have e3 : ¬('x' = '.') := by decide
        have e4 : ¬('x' = 'e') := by decide
        have e5 : ¬('x' = 'E') := by decide
        simp [validFloatBody, validAfterDigits, validExpOrEnd,
              List.takeWhile_cons, List.dropWhile_cons, e1, e2, e3, e4, e5] at h
      · have e2 : Char.isDigit 'X' = false := by decide
        have e3 : ¬('X' = '.') := by decide
        have e4 : ¬('X' = 'e') := by decide
        have e5 : ¬('X' = 'E') := by decide
        simp [validFloatBody, validAfterDigits, validExpOrEnd,
              List.takeWhile_cons, List.dropWhile_cons, e1, e2, e3, e4, e5] at h
    · simp only [jsParseUnsigned]
      rw [if_neg hx]

/-- On the value domain of the number input (empty, or a valid floating-point
number string) the code's `parseInt(v) || 0` coercion equals the
specification-side leading-digits reading. -/
theorem parse_agree (v : String) (h : v = "" ∨ validFloatStr v = true) :
    jsParseIntOr0 v = specQuantityOfInput v := by
  rcases h with rfl | h
  · rfl
  · cases hv : v.data with
    | nil =>
      unfold validFloatStr at h
      rw [hv] at h
      simp at h
    | cons c t =>
      have hv2 : v = ⟨c :: t⟩ := by rw [← hv]
      rw [hv2] at h ⊢
      simp only [validFloatStr] at h
      by_cases hc : c = '-'
      · subst hc
        rw [if_pos rfl] at h
        have hws : jsWhitespace '-' = false := by decide
        by_cases hds : t.takeWhile Char.isDigit = [] <;>
          simp [jsParseIntOr0, jsParseInt, jsParseIntCore, specQuantityOfInput,
                List.dropWhile_cons, hws, jsParseUnsigned_of_valid h, hds]
      · rw [if_neg hc] at h
        have hhead := validFloatBody_cons_head h
        have hws : jsWhitespace c = false := by
          rcases hhead with hd | rfl
          · exact digit_not_jsWhitespace hd
          · decide
        have hplus : ¬(c = '+') := by
          rcases hhead with hd | rfl
          · intro he
            subst he
            exact absurd hd (by decide)
          · decide
        by_cases hds : (c :: t).takeWhile Char.isDigit = [] <;>
          simp [jsParseIntOr0, jsParseInt, jsParseIntCore, specQuantityOfInput,
                List.dropWhile_cons, hws, hc, hplus, jsParseUnsigned_of_valid h, hds]

/-- A concrete inventory row. -/
def sampleInventoryItem : InventoryItem :=
  { id := "i1", user_id := "u1", barcode := "123", product := "Product-123",
    colour := none, size := none, quantity := 5, low_stock_threshold := 10,
    created_at := "2025-01-01", updated_at := "2025-01-01" }

/-- Claim C9: for every string the number input can deliver (empty or a valid
floating-point number string), the working copy's quantity becomes the
integer read from the string's leading digits after an optional minus sign,
`0` when there are none (empty or non-numeric input); negative integers pass
through unchanged, and `handleUpdate` sends the working copy's quantity
verbatim, so a save after typing `-5` sends the negative quantity `-5` to the
backend. -/
theorem edit_quantity_coercion :
    (∀ v : String, v = "" ∨ validFloatStr v = true →
       ∀ it : InventoryItem,
         (applyQuantityInput it v).quantity = specQuantityOfInput v) ∧
    (∀ (it : InventoryItem) (now : String),
       (handleUpdateBody it now).quantity = it.quantity) ∧
    (∀ (it : InventoryItem) (now : String),
       (handleUpdateBody (applyQuantityInput it "-5") now).quantity = -5) ∧
    jsParseIntOr0 "" = 0 := by
  refine ⟨fun v h it => ?_, fun it now => rfl, fun it now => ?_, rfl⟩
  · show jsParseIntOr0 v = specQuantityOfInput v
    exact parse_agree v h
  · show jsParseIntOr0 "-5" = -5
    decide

/-- Witness for C9 at the concrete input `-5` on a concrete row. -/
theorem edit_quantity_coercion_witness :
    (applyQuantityInput sampleInventoryItem "-5").quantity = specQuantityOfInput "-5" :=
  edit_quantity_coercion.1 "-5" (Or.inr (by decide)) sampleInventoryItem
